import Mathlib

/-
  Verification development for the mokei websocket messaging layer.

  Shallow embedding of:
    src/src/mokei/websocket.py  (MokeiWebSocketRoute: broadcast send, inbound dispatch)
    src/src/mokei/wsclient.py   (MokeiWebSocketClient: backoff, outbound queue, dispatch)

  Conventions:
  - Connection handles (MokeiWebSocket objects) are identified by their process-unique
    id and modelled as natural numbers; equality/hash of handles is identity-based in
    the source (uuid), so Nat equality is faithful.
  - Python strings are sequences of unicode code points, modelled as List Char.
  - JSON values (the result of json.loads / argument of json.dumps) are modelled by
    the inductive type Json below.  The json standard-library functions themselves are
    external to the repository; dispatch/codec definitions are parametric in a
    `loads : List Char → Option Json` (None modelling a raised json.JSONDecodeError)
    and `dumps : Json → List Char`.  A small concrete executable serializer/parser
    pair (dumpsSimple / loadsSimple) is provided to instantiate witnesses.
  - A coroutine that returns normally is modelled as `.ok`, a raised exception as
    `.error` of the corresponding Python exception class.
-/

set_option maxHeartbeats 1000000

/-- JSON-representable values (Python objects produced by json.loads):
None / bool / number / str / list / dict.  Numbers are restricted to integers,
which suffices for every claim under scrutiny. -/
inductive Json where
  | null : Json
  | bool (b : Bool) : Json
  | num (n : Int) : Json
  | str (s : String) : Json
  | arr (xs : List Json) : Json
  | obj (fields : List (String × Json)) : Json

/-- Python truthiness of a JSON value: None, False, 0, "", [], {} are falsy. -/
def Json.truthy : Json → Bool
  | .null => false
  | .bool b => b
  | .num n => n != 0
  | .str s => s != ""
  | .arr xs => !xs.isEmpty
  | .obj fs => !fs.isEmpty

/-- Truthiness of an `Option Json` (a Python variable that may hold None from a
failed dict.get). -/
def truthyOpt : Option Json → Bool
  | none => false
  | some j => j.truthy

/-- First-match association lookup on the field list of a JSON object
(json.loads yields a dict, whose keys are unique). -/
def findField : List (String × Json) → String → Option Json
  | [], _ => none
  | (k, v) :: rest, s => if k = s then some v else findField rest s

/-- Python exception classes that the modelled code can raise. -/
inductive PyError where
  | typeError : PyError
  | attributeError : PyError
  | keyError : PyError
  | jsonDecodeError : PyError
deriving DecidableEq

/-- Python `d.get(k)`: defined for dicts, AttributeError on any other value. -/
def dictGet : Json → String → Except PyError (Option Json)
  | .obj fields, k => .ok (findField fields k)
  | _, _ => .error .attributeError

/-- Is this JSON value the string `k`?  (Python equality `x == 'k'`.) -/
def jsonIsStr : Json → String → Bool
  | .str s, k => s == k
  | _, _ => false

/-- Does `needle` occur as a contiguous substring of `hay`?
(Python `'k' in somestring`.) -/
def containsSub (needle hay : List Char) : Bool :=
  (List.range (hay.length + 1)).any (fun i => needle.isPrefixOf (hay.drop i))

/-- Python `k in j` for a string k: key membership for dicts, element membership
for lists, substring test for strings, TypeError otherwise. -/
def pyContains : Json → String → Except PyError Bool
  | .obj fields, k => .ok (findField fields k).isSome
  | .arr xs, k => .ok (xs.any (fun x => jsonIsStr x k))
  | .str s, k => .ok (containsSub k.toList s.toList)
  | _, _ => .error .typeError

/-- Python `j['k']` for a string key k: dict indexing (KeyError when absent);
TypeError for lists/strings (indices must be integers) and all other values. -/
def pyIndex : Json → String → Except PyError Json
  | .obj fields, k =>
      match findField fields k with
      | some v => .ok v
      | none => .error .keyError
  | _, _ => .error .typeError

/-- The Mokei event marker `_MEM = 'μοκιε'` prepended to the JSON payload of an
event message (websocket.py line 16, wsclient.py line 9). -/
def MEM : List Char := "μοκιε".toList

namespace MokeiWebSocketRoute

/-- The `exclude` argument of `MokeiWebSocketRoute.send_text` (websocket.py
lines 139-140): omitted (None), a single handle, or an iterable of handles. -/
inductive ExcludeArg where
  | omitted : ExcludeArg
  | single (h : Nat) : ExcludeArg
  | iter (hs : List Nat) : ExcludeArg

/-- Harmonisation of `exclude` (websocket.py lines 142-146):
`exclude = exclude or ()` maps None and empty iterables to the empty tuple
(a MokeiWebSocket is always truthy because of its `__bool__`, lines 29-32),
and `isinstance(exclude, MokeiWebSocket)` wraps a single handle into a tuple. -/
def excludeList : ExcludeArg → List Nat
  | .omitted => []
  | .single h => [h]
  | .iter hs => hs

/-- Outcome of `ws.send_str(message)` on one handle: returns normally, or
raises ConnectionResetError (the unexpected-remote-disconnect case that
`send_to_single_ws` catches, websocket.py lines 166-172). -/
inductive SendOutcome where
  | ok : SendOutcome
  | connectionResetError : SendOutcome
deriving DecidableEq

/-- Recipient resolution in `send_text` (websocket.py lines 151-161):
targets when the variadic `target` tuple is non-empty, else all members of
`self.sockets`; then each handle listed in `exclude` is removed if present. -/
def recipientSockets (sockets : Finset Nat) (target : List Nat) (ex : ExcludeArg) :
    Finset Nat :=
  let base := if target = [] then sockets else target.toFinset
  (excludeList ex).foldl Finset.erase base

/-- Result of one `send_text` call.
`newSockets` is `self.sockets` after the call; `attempted` is the set of
recipients to whom `send_to_single_ws` awaited `send_str`; `delivered` is the
subset whose `send_str` returned without raising. -/
structure SendTextResult where
  newSockets : Finset Nat
  attempted : Finset Nat
  delivered : Finset Nat

/-- `MokeiWebSocketRoute.send_text` (websocket.py lines 139-180).
`outcome h` is the transport behaviour of `send_str` towards handle `h`.
Each failing send is caught inside `send_to_single_ws` (so the call always
returns normally), recorded in `remove_sockets`, and removed from
`self.sockets` (both inside the handler and in the post-gather loop, each
guarded by a membership test - jointly equivalent to set difference). -/
def send_text (sockets : Finset Nat) (target : List Nat) (ex : ExcludeArg)
    (outcome : Nat → SendOutcome) : SendTextResult :=
  let recipients := recipientSockets sockets target ex
  let removeSockets :=
    recipients.filter (fun h => outcome h = SendOutcome.connectionResetError)
  SendTextResult.mk (sockets \ removeSockets) recipients
    (recipients.filter (fun h => outcome h = SendOutcome.ok))

/-- Handler registrations of a route: `self._onevent_handlers` is a
defaultdict(list) keyed by event name (an absent key means no handler was ever
registered for that name), `self._ontext_handlers` a list.  Handlers are
identified by numeric ids; registration order is list order. -/
structure RouteHandlers where
  eventHandlers : List (String × List Nat)
  textHandlers : List Nat

end MokeiWebSocketRoute

/-- First-match lookup in a handler registry (Python dict with unique keys). -/
def findHandlers : List (String × List Nat) → String → Option (List Nat)
  | [], _ => none
  | (k, v) :: rest, s => if k = s then some v else findHandlers rest s

/-- One handler invocation scheduled by a dispatch gather: an event handler
called with `(ws, data)`, or a text handler called with `(ws, raw message)`. -/
inductive Invocation where
  | event (handler : Nat) (data : Option Json) : Invocation
  | text (handler : Nat) (message : List Char) : Invocation

/-- Does this invocation target an event handler? -/
def Invocation.isEvent : Invocation → Bool
  | .event _ _ => true
  | .text _ _ => false

namespace MokeiWebSocketRoute

/-- `self._onevent_handlers.get(event)` (websocket.py line 85): dict.get with
the decoded `event` value as key.  Registration keys are strings, so only a
string event can match; an unhashable key (list/dict) raises TypeError; any
other hashable non-string key misses (None result). -/
def routeGetHandlers (reg : List (String × List Nat)) :
    Option Json → Except PyError (Option (List Nat))
  | some (.str s) => .ok (findHandlers reg s)
  | some (.arr _) => .error .typeError
  | some (.obj _) => .error .typeError
  | _ => .ok none

/-- Marker branch of `MokeiWebSocketRoute._ontext_handler`
(websocket.py lines 80-86), applied to the message with the marker stripped:
json.loads (raising json.JSONDecodeError on invalid JSON), `.get('event')`
and `.get('data')`, silent return on a falsy event, then
`asyncio.gather(handler(ws, data_dict) for handler in handlers)` - which
raises TypeError when `handlers` is None because dict.get missed. -/
def ontext_marked (loads : List Char → Option Json) (R : RouteHandlers)
    (rest : List Char) : Except PyError (List Invocation) :=
  match loads rest with
  | none => .error .jsonDecodeError
  | some eventDict =>
    match dictGet eventDict "event" with
    | .error e => .error e
    | .ok event =>
      match dictGet eventDict "data" with
      | .error e => .error e
      | .ok dataDict =>
        if truthyOpt event = false then .ok []
        else
          match routeGetHandlers R.eventHandlers event with
          | .error e => .error e
          | .ok none => .error .typeError
          | .ok (some handlers) =>
            .ok (handlers.map (fun h => Invocation.event h dataDict))

/-- `MokeiWebSocketRoute._ontext_handler` (websocket.py lines 72-88):
marker-prefixed messages go through event decoding; all other text is fanned
out to the plain-text handlers. -/
def ontext_handler (loads : List Char → Option Json) (R : RouteHandlers)
    (msg : List Char) : Except PyError (List Invocation) :=
  if MEM.isPrefixOf msg then ontext_marked loads R (msg.drop MEM.length)
  else .ok (R.textHandlers.map (fun h => Invocation.text h msg))

/-- The decode steps of the route dispatcher in isolation
(websocket.py lines 79-82, the Envelope Codec decode of spec section 4.2):
marker test, json.loads of the remainder, extraction of the `event` and
`data` fields.  `.ok none` means "not an event, plain text". -/
def decodeEnvelope (loads : List Char → Option Json) (msg : List Char) :
    Except PyError (Option (Option Json × Option Json)) :=
  if MEM.isPrefixOf msg then
    match loads (msg.drop MEM.length) with
    | none => .error .jsonDecodeError
    | some eventDict =>
      match dictGet eventDict "event" with
      | .error e => .error e
      | .ok event =>
        match dictGet eventDict "data" with
        | .error e => .error e
        | .ok dataDict => .ok (some (event, dataDict))
  else .ok none

/-- The wire text built by `MokeiWebSocketRoute.send_event`
(websocket.py lines 182-187): `_MEM + json.dumps({'event': event, 'data': data})`. -/
def send_event (dumps : Json → List Char) (event : String) (data : Json) :
    List Char :=
  MEM ++ dumps (Json.obj [("event", Json.str event), ("data", data)])

end MokeiWebSocketRoute

namespace MokeiWebSocketClient

/-- Handler registrations of a client: `self._handlers` is a defaultdict(list)
keyed by event name, `self._ontext_handlers` a list (wsclient.py lines 20-23). -/
structure ClientHandlers where
  eventHandlers : List (String × List Nat)
  textHandlers : List Nat

/-- `self._handlers[event]` (wsclient.py line 48): defaultdict indexing with the
decoded event value as key.  A registered string name yields its handler list,
any other hashable value yields the freshly-created default `[]`, and an
unhashable value (list/dict) raises TypeError. -/
def handlersIndex (reg : List (String × List Nat)) :
    Json → Except PyError (List Nat)
  | .str s => .ok ((findHandlers reg s).getD [])
  | .arr _ => .error .typeError
  | .obj _ => .error .typeError
  | _ => .ok []

/-- Marker branch of `MokeiWebSocketClient._ontext_handler`
(wsclient.py lines 42-49), applied to `msg` with `rest = msg[len(_MEM):]`:
json.loads, the short-circuit membership test
`if 'event' not in event_data or 'data' not in event_data: return`
(which skips the final text fan-out as well), indexing of both fields,
the event-handler gather, and then the unconditional text-handler gather
of line 49. -/
def ontext_marked (loads : List Char → Option Json) (C : ClientHandlers)
    (msg rest : List Char) : Except PyError (List Invocation) :=
  match loads rest with
  | none => .error .jsonDecodeError
  | some eventData =>
    match pyContains eventData "event" with
    | .error e => .error e
    | .ok false => .ok []
    | .ok true =>
      match pyContains eventData "data" with
      | .error e => .error e
      | .ok false => .ok []
      | .ok true =>
        match pyIndex eventData "event" with
        | .error e => .error e
        | .ok event =>
          match pyIndex eventData "data" with
          | .error e => .error e
          | .ok data =>
            match handlersIndex C.eventHandlers event with
            | .error e => .error e
            | .ok hs =>
              .ok (hs.map (fun h => Invocation.event h (some data))
                   ++ C.textHandlers.map (fun h => Invocation.text h msg))

/-- `MokeiWebSocketClient._ontext_handler` (wsclient.py lines 41-49).
Note the asymmetry with the route: line 49 fans the raw message out to the
plain-text handlers even when the message was marker-prefixed and dispatched
as an event. -/
def ontext_handler (loads : List Char → Option Json) (C : ClientHandlers)
    (msg : List Char) : Except PyError (List Invocation) :=
  if MEM.isPrefixOf msg then ontext_marked loads C msg (msg.drop MEM.length)
  else .ok (C.textHandlers.map (fun h => Invocation.text h msg))

/-- Backoff fields of the client (wsclient.py lines 16-18):
`_default_backoff`, `_current_backoff`, `_max_backoff`.  Modelled over ℚ
(exact arithmetic; the float computation involves only +, *, min on
non-negative values in [0, 15]). -/
structure BackoffState where
  defaultBackoff : Rat
  currentBackoff : Rat
  maxBackoff : Rat

/-- `MokeiWebSocketClient._get_backoff` (wsclient.py lines 26-30) with
`u = random.random()`: returns the pre-update `_current_backoff` and the
updated state `current = min(current + current * u, max)`. -/
def BackoffState.get_backoff (st : BackoffState) (u : Rat) : Rat × BackoffState :=
  (st.currentBackoff,
   BackoffState.mk st.defaultBackoff
     (min (st.currentBackoff + st.currentBackoff * u) st.maxBackoff)
     st.maxBackoff)

/-- `MokeiWebSocketClient._reset_backoff` (wsclient.py lines 32-33). -/
def BackoffState.reset_backoff (st : BackoffState) : BackoffState :=
  BackoffState.mk st.defaultBackoff st.defaultBackoff st.maxBackoff

/-- The backoff state at construction (wsclient.py lines 16-18):
default 1.0, current 1.0, max 15.0. -/
def initBackoff : BackoffState := BackoffState.mk 1 1 15

/-- State before the n-th `_get_backoff` call of an uninterrupted call
sequence starting from a fresh client, where `u i` is the `random.random()`
draw of call i. -/
def backoffIter (u : Nat → Rat) : Nat → BackoffState
  | 0 => initBackoff
  | n + 1 => ((backoffIter u n).get_backoff (u n)).2

/-- `MokeiWebSocketClient._send_unsent_messages` (wsclient.py lines 110-118)
on a fixed connection state.  `connected` is the truthiness of `self._ws`
during the drain; `ok k` tells whether the k-th `send_str` attempt of this
drain returns normally (false = it raises ConnectionResetError, which the
`except` turns into a break).  Returns the remaining queue and the
successfully handed-off messages in send order; a message is popped only
after its `send_str` returned. -/
def send_unsent_messages (connected : Bool) (ok : Nat → Bool) :
    Nat → List (List Char) → List (List Char) × List (List Char)
  | _, [] => ([], [])
  | k, m :: rest =>
    if connected = false then (m :: rest, [])
    else if ok k = false then (m :: rest, [])
    else
      let r := send_unsent_messages connected ok (k + 1) rest
      (r.1, m :: r.2)

/-- `MokeiWebSocketClient.send` (wsclient.py lines 120-122): append the text at
the tail of `_unsent_messages`, then drain. -/
def send (connected : Bool) (ok : Nat → Bool) (queue : List (List Char))
    (text : List Char) : List (List Char) × List (List Char) :=
  send_unsent_messages connected ok 0 (queue ++ [text])

end MokeiWebSocketClient

/-- The opening-brace character, written via its code point. -/
def lbrace : Char := Char.ofNat 123

/-- The closing-brace character, written via its code point. -/
def rbrace : Char := Char.ofNat 125

/-- Comma-join a list of already-serialized chunks. -/
def joinComma : List (List Char) → List Char
  | [] => []
  | [x] => x
  | x :: y :: rest => x ++ (',' :: joinComma (y :: rest))

/-- Serialize one JSON string (no escaping; plain strings only). -/
def dumpsStr (s : String) : List Char := '"' :: (s.toList ++ ['"'])

/-- A concrete executable JSON serializer for the modelled fragment
(compact separators, no string escaping), a stand-in for the external
standard-library `json.dumps` when a witness needs a concrete instance.
`fuel` bounds the nesting depth; recursion is structural on it so concrete
values reduce in the kernel. -/
def dumpsCore : Nat → Json → List Char
  | 0, _ => []
  | f + 1, j =>
    match j with
    | .null => 'n' :: 'u' :: 'l' :: 'l' :: []
    | .bool true => 't' :: 'r' :: 'u' :: 'e' :: []
    | .bool false => 'f' :: 'a' :: 'l' :: 's' :: 'e' :: []
    | .num n => (toString n).toList
    | .str s => dumpsStr s
    | .arr xs => '[' :: (joinComma (xs.map (dumpsCore f)) ++ [']'])
    | .obj fs =>
      lbrace ::
        (joinComma (fs.map (fun kv => dumpsStr kv.1 ++ (':' :: dumpsCore f kv.2)))
         ++ [rbrace])

/-- `dumpsCore` with ample fuel for any concrete instance below. -/
def dumpsSimple (j : Json) : List Char := dumpsCore 1000 j

/-- JSON insignificant whitespace. -/
def isWsChar (c : Char) : Bool := c == ' ' || c == '\n' || c == '\t' || c == '\r'

/-- Drop leading JSON whitespace. -/
def skipWs : List Char → List Char
  | [] => []
  | c :: rest => if isWsChar c then skipWs rest else c :: rest

/-- Numeric value of a decimal digit character. -/
def digitVal (c : Char) : Nat := c.toNat - 48

/-- Consume a maximal run of decimal digits, accumulating their value. -/
def parseNatAcc (acc : Nat) : List Char → Nat × List Char
  | [] => (acc, [])
  | c :: rest =>
    if c.isDigit then parseNatAcc (acc * 10 + digitVal c) rest else (acc, c :: rest)

/-- Consume the body of a JSON string up to its closing quote
(escape sequences are outside the supported fragment). -/
def parseStrBody : List Char → Option (List Char × List Char)
  | [] => none
  | c :: rest =>
    if c == '"' then some ([], rest)
    else if c == '\\' then none
    else
      match parseStrBody rest with
      | some (s, r) => some (c :: s, r)
      | none => none

/-- A concrete executable JSON parser for the modelled fragment, a stand-in for
the external standard-library `json.loads` when a witness needs a concrete
instance.  `mode` 0 parses one value; `mode` 1 parses the items of a non-empty
array up to the closing bracket (yielding `.arr`); `mode` 2 parses the members
of a non-empty object up to the closing brace (yielding `.obj`).  Recursion is
structural on `fuel`, so concrete parses reduce in the kernel. -/
def parseCore : Nat → Nat → List Char → Option (Json × List Char)
  | 0, _, _ => none
  | f + 1, mode, s =>
    if mode = 1 then
      match parseCore f 0 s with
      | none => none
      | some (x, r) =>
        match skipWs r with
        | [] => none
        | c :: r2 =>
          if c == ',' then
            match parseCore f 1 r2 with
            | some (Json.arr xs, r3) => some (.arr (x :: xs), r3)
            | _ => none
          else if c == ']' then some (.arr [x], r2)
          else none
    else if mode = 2 then
      match skipWs s with
      | [] => none
      | c :: rest =>
        if c == '"' then
          match parseStrBody rest with
          | none => none
          | some (k, r) =>
            match skipWs r with
            | [] => none
            | c2 :: r2 =>
              if c2 == ':' then
                match parseCore f 0 r2 with
                | none => none
                | some (v, r3) =>
                  match skipWs r3 with
                  | [] => none
                  | c3 :: r4 =>
                    if c3 == ',' then
                      match parseCore f 2 r4 with
                      | some (Json.obj fs, r5) => some (.obj ((String.mk k, v) :: fs), r5)
                      | _ => none
                    else if c3 == rbrace then some (.obj [(String.mk k, v)], r4)
                    else none
              else none
        else none
    else
      match skipWs s with
      | [] => none
      | c :: rest =>
        if c == 'n' then
          match rest with
          | 'u' :: 'l' :: 'l' :: r => some (.null, r)
          | _ => none
        else if c == 't' then
          match rest with
          | 'r' :: 'u' :: 'e' :: r => some (.bool true, r)
          | _ => none
        else if c == 'f' then
          match rest with
          | 'a' :: 'l' :: 's' :: 'e' :: r => some (.bool false, r)
          | _ => none
        else if c == '"' then
          match parseStrBody rest with
          | some (cs, r) => some (.str (String.mk cs), r)
          | none => none
        else if c == '-' then
          match rest with
          | d :: _ =>
            if d.isDigit then
              let p := parseNatAcc 0 rest
              some (.num (-(p.1 : Int)), p.2)
            else none
          | [] => none
        else if c.isDigit then
          let p := parseNatAcc 0 (c :: rest)
          some (.num (p.1 : Int), p.2)
        else if c == '[' then
          match skipWs rest with
          | ']' :: r => some (.arr [], r)
          | r2 => parseCore f 1 r2
        else if c == lbrace then
          let r2 := skipWs rest
          if r2.head? == some rbrace then some (.obj [], r2.tail)
          else parseCore f 2 r2
        else none

/-- Top-level concrete JSON parse: a full parse of the text with only trailing
whitespace remaining, as `json.loads` requires. -/
def loadsSimple (s : List Char) : Option Json :=
  match parseCore (s.length + 1) 0 s with
  | some (j, r) => if (skipWs r).isEmpty then some j else none
  | none => none

/-- Length of the maximal run of successful send attempts: starting at attempt
index `k` with at most `n` attempts available, the number of consecutive
attempts for which `ok` holds.  Characterises how far a connected drain of the
client's outbound queue proceeds before its first ConnectionResetError. -/
def okRun (ok : Nat → Bool) : Nat → Nat → Nat
  | _, 0 => 0
  | k, n + 1 => if ok k then okRun ok (k + 1) n + 1 else 0

/-- A transport on which every send raises ConnectionResetError (witness data). -/
def okNever : Nat → Bool := fun _ => false

/-- A constant jitter draw of one half (witness data). -/
def uHalf : Nat → Rat := fun _ => 1 / 2

/-- A transport outcome where exactly handle 2 is unreachable (witness data). -/
def outcomeFail2 : Nat → MokeiWebSocketRoute.SendOutcome :=
  fun h => if h = 2 then .connectionResetError else .ok

/-- A transport outcome where every handle is reachable (witness data). -/
def outcomeAllOk : Nat → MokeiWebSocketRoute.SendOutcome := fun _ => .ok

/-- A route with no handlers registered at all (witness data). -/
def emptyRoute : MokeiWebSocketRoute.RouteHandlers :=
  MokeiWebSocketRoute.RouteHandlers.mk [] []

/-- A client with one plain-text handler (id 7) and no event handlers
(witness data). -/
def textOnlyClient : MokeiWebSocketClient.ClientHandlers :=
  MokeiWebSocketClient.ClientHandlers.mk [] [7]

/-- A client with one handler (id 3) for event "ping" and one plain-text
handler (id 9) (witness data). -/
def pingClient : MokeiWebSocketClient.ClientHandlers :=
  MokeiWebSocketClient.ClientHandlers.mk [("ping", [3])] [9]

/-- The JSON payload of a "ping" event with null data (witness data). -/
def pingEventJson : List Char := "\x7b\"event\":\"ping\",\"data\":null\x7d".toList

/-- A JSON object whose `event` field is present but falsy (witness data). -/
def falsyEventJson : List Char := "\x7b\"event\":\"\",\"data\":null\x7d".toList

/-- A JSON object with no `event` field (witness data). -/
def noEventJson : List Char := "\x7b\"data\":null\x7d".toList

/-- A syntactically invalid JSON payload: a lone opening brace (witness data). -/
def badJson : List Char := "\x7b".toList

/-- The JSON payload of a "ping" event with numeric data (witness data). -/
def pingDataJson : List Char := "\x7b\"event\":\"ping\",\"data\":1\x7d".toList

/-- A list is a Boolean prefix of itself extended by anything. -/
theorem isPrefixOf_append (p s : List Char) : p.isPrefixOf (p ++ s) = true := by
  induction p with
  | nil => simp [List.isPrefixOf]
  | cons c cs ih => simp [List.isPrefixOf, ih]

/-- Membership after folding `Finset.erase` over a list of elements to remove. -/
theorem mem_foldl_erase (l : List Nat) (s : Finset Nat) (a : Nat) :
    a ∈ l.foldl Finset.erase s ↔ a ∈ s ∧ a ∉ l := by
  induction l generalizing s with
  | nil => simp
  | cons x xs ih => simp [List.foldl_cons, ih, Finset.mem_erase]; tauto

namespace MokeiWebSocketRoute

/-- Membership characterisation of the resolved recipient set. -/
theorem mem_recipientSockets (S : Finset Nat) (target : List Nat) (ex : ExcludeArg)
    (a : Nat) :
    a ∈ recipientSockets S target ex ↔
      ((if target = [] then a ∈ S else a ∈ target) ∧ a ∉ excludeList ex) := by
  unfold recipientSockets
  rw [mem_foldl_erase]
  by_cases h : target = [] <;> simp [h, List.mem_toFinset]

/-- The attempted set of a `send_text` call is exactly the resolved recipients. -/
theorem send_text_attempted (S : Finset Nat) (target : List Nat) (ex : ExcludeArg)
    (o : Nat → SendOutcome) :
    (send_text S target ex o).attempted = recipientSockets S target ex := rfl

/-- Membership in `self.sockets` after a `send_text` call. -/
theorem mem_send_text_newSockets (S : Finset Nat) (target : List Nat)
    (ex : ExcludeArg) (o : Nat → SendOutcome) (a : Nat) :
    a ∈ (send_text S target ex o).newSockets ↔
      (a ∈ S ∧ ¬(a ∈ recipientSockets S target ex
                 ∧ o a = SendOutcome.connectionResetError)) := by
  simp [send_text, Finset.mem_sdiff, Finset.mem_filter]

/-- Membership in the delivered set of a `send_text` call. -/
theorem mem_send_text_delivered (S : Finset Nat) (target : List Nat)
    (ex : ExcludeArg) (o : Nat → SendOutcome) (a : Nat) :
    a ∈ (send_text S target ex o).delivered ↔
      (a ∈ recipientSockets S target ex ∧ o a = SendOutcome.ok) := by
  simp [send_text, Finset.mem_filter]

/-- A send outcome is success exactly when it is not a connection reset. -/
theorem SendOutcome.ok_iff (o : SendOutcome) :
    o = SendOutcome.ok ↔ ¬(o = SendOutcome.connectionResetError) := by
  cases o <;> simp

end MokeiWebSocketRoute

/-- Route dispatch on a marker-prefixed message reduces to the marked branch on
the remainder. -/
theorem route_ontext_marker (loads : List Char → Option Json)
    (R : MokeiWebSocketRoute.RouteHandlers) (rest : List Char) :
    MokeiWebSocketRoute.ontext_handler loads R (MEM ++ rest)
      = MokeiWebSocketRoute.ontext_marked loads R rest := by
  simp [MokeiWebSocketRoute.ontext_handler, isPrefixOf_append, List.drop_left]

/-- Client dispatch on a marker-prefixed message reduces to the marked branch
on the remainder. -/
theorem client_ontext_marker (loads : List Char → Option Json)
    (C : MokeiWebSocketClient.ClientHandlers) (rest : List Char) :
    MokeiWebSocketClient.ontext_handler loads C (MEM ++ rest)
      = MokeiWebSocketClient.ontext_marked loads C (MEM ++ rest) rest := by
  simp [MokeiWebSocketClient.ontext_handler, isPrefixOf_append, List.drop_left]

namespace MokeiWebSocketClient

/-- A drain while disconnected leaves the queue untouched and sends nothing. -/
theorem send_unsent_disconnected (ok : Nat → Bool) (k : Nat) (q : List (List Char)) :
    send_unsent_messages false ok k q = (q, []) := by
  cases q <;> simp [send_unsent_messages]

/-- A connected drain hands off exactly the maximal successful prefix of the
queue, in order, and leaves the rest queued in order. -/
theorem send_unsent_connected (ok : Nat → Bool) (q : List (List Char)) (k : Nat) :
    send_unsent_messages true ok k q
      = (q.drop (okRun ok k q.length), q.take (okRun ok k q.length)) := by
  induction q generalizing k with
  | nil => simp [send_unsent_messages, okRun]
  | cons m rest ih =>
    by_cases h : ok k
    · simp [send_unsent_messages, okRun, h, ih (k + 1)]
    · simp [send_unsent_messages, okRun, h]

/-- Every attempt within the successful run indeed succeeds. -/
theorem okRun_all_ok (ok : Nat → Bool) :
    ∀ (n k j : Nat), j < okRun ok k n → ok (k + j) = true := by
  intro n
  induction n with
  | zero => intro k j hj; simp [okRun] at hj
  | succ n ih =>
    intro k j hj
    by_cases h : ok k
    · simp [okRun, h] at hj
      cases j with
      | zero => simpa using h
      | succ j =>
        have hc : k + (j + 1) = (k + 1) + j := by omega
        rw [hc]
        exact ih (k + 1) j (by omega)
    · simp [okRun, h] at hj

/-- The successful run either exhausts the queue or stops at a failing attempt. -/
theorem okRun_stop (ok : Nat → Bool) :
    ∀ (n k : Nat), okRun ok k n = n ∨ ok (k + okRun ok k n) = false := by
  intro n
  induction n with
  | zero => intro k; left; simp [okRun]
  | succ n ih =>
    intro k
    by_cases h : ok k
    · rcases ih (k + 1) with h1 | h2
      · left; simp [okRun, h, h1]
      · right
        have hc : k + (okRun ok (k + 1) n + 1) = (k + 1) + okRun ok (k + 1) n := by omega
        simp only [okRun, h, if_true]
        rw [hc]
        exact h2
    · right; simp [okRun, h]

/-- `_default_backoff` is never modified by `_get_backoff`. -/
theorem backoffIter_default (u : Nat → Rat) (n : Nat) :
    (backoffIter u n).defaultBackoff = 1 := by
  induction n with
  | zero => rfl
  | succ n ih => simp [backoffIter, BackoffState.get_backoff, ih]

/-- `_max_backoff` is never modified by `_get_backoff`. -/
theorem backoffIter_max (u : Nat → Rat) (n : Nat) :
    (backoffIter u n).maxBackoff = 15 := by
  induction n with
  | zero => rfl
  | succ n ih => simp [backoffIter, BackoffState.get_backoff, ih]

/-- Under non-negative jitter the current backoff stays within [0, 15]. -/
theorem backoffIter_bounds (u : Nat → Rat) (hu : ∀ i, 0 ≤ u i) (n : Nat) :
    0 ≤ (backoffIter u n).currentBackoff ∧ (backoffIter u n).currentBackoff ≤ 15 := by
  induction n with
  | zero => norm_num [backoffIter, initBackoff]
  | succ n ih =>
    have hmax := backoffIter_max u n
    have h1 : 0 ≤ (backoffIter u n).currentBackoff
        + (backoffIter u n).currentBackoff * u n := by
      nlinarith [ih.1, hu n]
    constructor
    · simp only [backoffIter, BackoffState.get_backoff, hmax]
      exact le_min h1 (by norm_num)
    · simp only [backoffIter, BackoffState.get_backoff, hmax]
      exact min_le_right _ _

end MokeiWebSocketClient

namespace MokeiWebSocketRoute

/-- Claim C1: for a broadcast (no explicit targets) via the Route's send_text
in which exactly one recipient's `send_str` raises ConnectionResetError, the
call completes normally (the model is total because the only transport failure,
ConnectionResetError, is caught inside `send_to_single_ws`), every other
recipient is still sent the message, the failed handle is no longer a member of
`sockets` afterwards, and every other previously-present handle remains a
member. -/
theorem sendText_single_failure_isolated (S : Finset Nat) (ex : ExcludeArg)
    (b : Nat) (o : Nat → SendOutcome)
    (hb : b ∈ recipientSockets S [] ex)
    (hone : ∀ h ∈ recipientSockets S [] ex,
      (o h = SendOutcome.connectionResetError ↔ h = b)) :
    (send_text S [] ex o).newSockets = S.erase b
    ∧ b ∉ (send_text S [] ex o).newSockets
    ∧ (∀ h ∈ S, h ≠ b → h ∈ (send_text S [] ex o).newSockets)
    ∧ (send_text S [] ex o).delivered = (recipientSockets S [] ex).erase b
    ∧ (send_text S [] ex o).attempted = recipientSockets S [] ex := by
  have hnew : ∀ a, a ∈ (send_text S [] ex o).newSockets ↔ (a ∈ S ∧ a ≠ b) := by
    intro a
    rw [mem_send_text_newSockets]
    constructor
    · rintro ⟨haS, hn⟩
      refine ⟨haS, ?_⟩
      rintro rfl
      exact hn ⟨hb, (hone a hb).mpr rfl⟩
    · rintro ⟨haS, hne⟩
      refine ⟨haS, ?_⟩
      rintro ⟨har, hreset⟩
      exact hne ((hone a har).mp hreset)
  refine ⟨?_, ?_, ?_, ?_, rfl⟩
  · ext a
    rw [hnew, Finset.mem_erase]
    tauto
  · intro hmem
    exact ((hnew b).mp hmem).2 rfl
  · intro h hS hne
    exact (hnew h).mpr ⟨hS, hne⟩
  · ext a
    rw [mem_send_text_delivered, Finset.mem_erase]
    constructor
    · rintro ⟨har, hok⟩
      refine ⟨?_, har⟩
      intro heq
      rw [SendOutcome.ok_iff] at hok
      exact hok ((hone a har).mpr heq)
    · rintro ⟨hne, har⟩
      refine ⟨har, ?_⟩
      rw [SendOutcome.ok_iff]
      intro hreset
      exact hne ((hone a har).mp hreset)

/-- Witness for C1: broadcasting to sockets 1, 2, 3 with only handle 2
unreachable evicts exactly handle 2. -/
theorem sendText_single_failure_witness :
    (send_text {1, 2, 3} [] ExcludeArg.omitted outcomeFail2).newSockets
      = Finset.erase {1, 2, 3} 2 :=
  (sendText_single_failure_isolated {1, 2, 3} ExcludeArg.omitted 2 outcomeFail2
    (by decide) (by decide)).1

/-- Claim C2: the set of handles to which a send is attempted equals the
explicit targets when at least one target is given, otherwise the current
members of `sockets`, minus every handle in `exclude` (which may be omitted,
a single handle, or an iterable); in particular with members 1, 2, 3 and
exclude 2 the message is delivered to exactly 1 and 3. -/
theorem sendText_recipient_resolution (S : Finset Nat) (target : List Nat)
    (ex : ExcludeArg) (o : Nat → SendOutcome) :
    (∀ a, a ∈ (send_text S target ex o).attempted ↔
      ((if target = [] then a ∈ S else a ∈ target) ∧ a ∉ excludeList ex))
    ∧ (send_text {1, 2, 3} [] (ExcludeArg.single 2) outcomeAllOk).delivered
        = {1, 3} := by
  constructor
  · intro a
    rw [send_text_attempted]
    exact mem_recipientSockets S target ex a
  · decide

/-- Witness for C2 at the concrete broadcast of the claim. -/
theorem sendText_recipient_resolution_witness :
    (send_text {1, 2, 3} [] (ExcludeArg.single 2) outcomeAllOk).delivered
      = {1, 3} :=
  (sendText_recipient_resolution {1, 2, 3} [] (ExcludeArg.single 2) outcomeAllOk).2

/-- Claim C10: with one or more explicit targets the recipient set is built
from the targets alone, with no membership check against `sockets` (so a send
is attempted to each listed non-excluded target, member or not), and when
every send succeeds `sockets` is left unchanged. -/
theorem sendText_explicit_targets_unchecked (S : Finset Nat) (target : List Nat)
    (ex : ExcludeArg) (o : Nat → SendOutcome) (hne : target ≠ []) :
    (∀ a, a ∈ (send_text S target ex o).attempted ↔
      (a ∈ target ∧ a ∉ excludeList ex))
    ∧ ((∀ h, o h = SendOutcome.ok) → (send_text S target ex o).newSockets = S) := by
  constructor
  · intro a
    rw [send_text_attempted, mem_recipientSockets]
    simp [hne]
  · intro hall
    ext a
    rw [mem_send_text_newSockets]
    simp [hall]

/-- Witness for C10: a send is attempted to target 5 although it is not a
member of the socket set, and a successful send leaves the set unchanged. -/
theorem sendText_explicit_targets_witness :
    5 ∈ (send_text {1} [5] ExcludeArg.omitted outcomeAllOk).attempted
    ∧ (send_text {1} [5] ExcludeArg.omitted outcomeAllOk).newSockets = {1} := by
  have h := sendText_explicit_targets_unchecked {1} [5] ExcludeArg.omitted
    outcomeAllOk (by decide)
  exact ⟨(h.1 5).mpr (by decide), h.2 (fun _ => rfl)⟩

end MokeiWebSocketRoute

/-- Claim C3: decoding the encoded envelope round-trips.  For every event name
and every JSON value, applying the decode logic of the route dispatcher (strip
the marker, parse the remainder as JSON, extract the `event` and `data`
fields) to the wire text produced by `send_event` (marker plus the JSON dump
of the two-field object) yields back exactly the original (event, data) pair.
The hypothesis is the round-trip contract of the external JSON library on the
envelope object; event strings (non-ASCII included) and data values are
universally quantified. -/
theorem encode_decode_roundtrip (dumps : Json → List Char)
    (loads : List Char → Option Json) (event : String) (data : Json)
    (hrt : loads (dumps (Json.obj [("event", Json.str event), ("data", data)]))
      = some (Json.obj [("event", Json.str event), ("data", data)])) :
    MokeiWebSocketRoute.decodeEnvelope loads
        (MokeiWebSocketRoute.send_event dumps event data)
      = .ok (some (some (Json.str event), some data)) := by
  unfold MokeiWebSocketRoute.send_event MokeiWebSocketRoute.decodeEnvelope
  simp [isPrefixOf_append, List.drop_left, hrt, dictGet, findField]

/-- Witness for C3: a concrete round-trip through the executable JSON codec,
with a non-ASCII event name and nested data. -/
theorem encode_decode_roundtrip_witness :
    MokeiWebSocketRoute.decodeEnvelope loadsSimple
        (MokeiWebSocketRoute.send_event dumpsSimple "πικ"
          (Json.obj [("n", Json.num (-12))]))
      = .ok (some (some (Json.str "πικ"), some (Json.obj [("n", Json.num (-12))]))) :=
  encode_decode_roundtrip dumpsSimple loadsSimple "πικ"
    (Json.obj [("n", Json.num (-12))]) rfl

/-- Claim C4 (code bug): dispatching a marker-prefixed message that decodes to
the truthy event name "ping" on a route where no handler was ever registered
for it is NOT a silent no-op: `self._onevent_handlers.get(event)` returns None
(dict.get does not consult the defaultdict factory) and the gather iterates
None, raising TypeError.  This theorem evaluates the model at the failing
input. -/
theorem route_unregistered_event_raises :
    MokeiWebSocketRoute.ontext_handler loadsSimple emptyRoute (MEM ++ pingEventJson)
      = .error PyError.typeError := rfl

/-- Claim C7: a marker-prefixed message whose remainder is not valid JSON makes
both the route and the client dispatcher propagate the JSON parse error to the
caller instead of silently dropping the message. -/
theorem dispatch_invalid_json_propagates (loads : List Char → Option Json)
    (R : MokeiWebSocketRoute.RouteHandlers) (C : MokeiWebSocketClient.ClientHandlers)
    (rest : List Char) (hbad : loads rest = none) :
    MokeiWebSocketRoute.ontext_handler loads R (MEM ++ rest)
      = .error PyError.jsonDecodeError
    ∧ MokeiWebSocketClient.ontext_handler loads C (MEM ++ rest)
      = .error PyError.jsonDecodeError := by
  rw [route_ontext_marker, client_ontext_marker]
  constructor
  · simp [MokeiWebSocketRoute.ontext_marked, hbad]
  · simp [MokeiWebSocketClient.ontext_marked, hbad]

/-- Witness for C7: the lone opening brace is rejected by the concrete parser
and both dispatchers surface the parse error. -/
theorem dispatch_invalid_json_witness :
    MokeiWebSocketRoute.ontext_handler loadsSimple emptyRoute (MEM ++ badJson)
      = .error PyError.jsonDecodeError
    ∧ MokeiWebSocketClient.ontext_handler loadsSimple textOnlyClient (MEM ++ badJson)
      = .error PyError.jsonDecodeError :=
  dispatch_invalid_json_propagates loadsSimple emptyRoute textOnlyClient badJson rfl

/-- Counterexample to C8 as stated: on the client, a marker-prefixed message
whose JSON object has a present-but-falsy `event` value (the empty string) is
NOT dropped - with a plain-text handler (id 7) registered, dispatch invokes it
with the raw message, so the invocation list is non-empty. -/
theorem client_falsy_event_counterexample :
    MokeiWebSocketClient.ontext_handler loadsSimple textOnlyClient
        (MEM ++ falsyEventJson)
      = .ok [Invocation.text 7 (MEM ++ falsyEventJson)]
    ∧ (Invocation.text 7 (MEM ++ falsyEventJson) :: []) ≠ ([] : List Invocation) :=
  ⟨rfl, by simp⟩

/-- Claim C8 as amended: on the Route, a marker-prefixed message whose JSON
object omits `event` or carries a falsy `event` value is dropped silently with
no handler invoked and no error.  On the Client, the message is dropped
silently when the `event` key (or the `data` key) is absent; but a
present-and-falsy `event` (the empty string) is not dropped: the client still
invokes any handlers registered under that name and every plain-text handler
with the raw message, returning without error. -/
theorem dispatch_missing_or_falsy_event (loads : List Char → Option Json)
    (rest : List Char) (fields : List (String × Json))
    (R : MokeiWebSocketRoute.RouteHandlers) (C : MokeiWebSocketClient.ClientHandlers)
    (hl : loads rest = some (Json.obj fields)) :
    (∀ ev, findField fields "event" = some ev → ev.truthy = false →
      MokeiWebSocketRoute.ontext_handler loads R (MEM ++ rest) = .ok [])
    ∧ (findField fields "event" = none →
      MokeiWebSocketRoute.ontext_handler loads R (MEM ++ rest) = .ok [])
    ∧ (findField fields "event" = none →
      MokeiWebSocketClient.ontext_handler loads C (MEM ++ rest) = .ok [])
    ∧ (findField fields "data" = none →
      MokeiWebSocketClient.ontext_handler loads C (MEM ++ rest) = .ok [])
    ∧ (∀ d, findField fields "event" = some (Json.str "") →
      findField fields "data" = some d →
      MokeiWebSocketClient.ontext_handler loads C (MEM ++ rest)
        = .ok (((findHandlers C.eventHandlers "").getD []).map
                  (fun h => Invocation.event h (some d))
                ++ C.textHandlers.map (fun h => Invocation.text h (MEM ++ rest)))) := by
  rw [route_ontext_marker, client_ontext_marker]
  refine ⟨?_, ?_, ?_, ?_, ?_⟩
  · intro ev hev hft
    simp [MokeiWebSocketRoute.ontext_marked, hl, dictGet, hev, truthyOpt, hft]
  · intro hev
    simp [MokeiWebSocketRoute.ontext_marked, hl, dictGet, hev, truthyOpt]
  · intro hev
    simp [MokeiWebSocketClient.ontext_marked, hl, pyContains, hev]
  · intro hd
    cases hev : findField fields "event" with
    | none => simp [MokeiWebSocketClient.ontext_marked, hl, pyContains, hev]
    | some ev => simp [MokeiWebSocketClient.ontext_marked, hl, pyContains, hev, hd]
  · intro d hev hd
    simp [MokeiWebSocketClient.ontext_marked, hl, pyContains, hev, hd, pyIndex,
      MokeiWebSocketClient.handlersIndex]

/-- Witness for the amended C8: a payload with no `event` field is silently
dropped by the route dispatcher. -/
theorem dispatch_missing_event_witness :
    MokeiWebSocketRoute.ontext_handler loadsSimple emptyRoute (MEM ++ noEventJson)
      = .ok [] :=
  (dispatch_missing_or_falsy_event loadsSimple noEventJson [("data", Json.null)]
    emptyRoute textOnlyClient rfl).2.1 rfl

/-- Claim C9: on the client, an inbound frame that decodes to a named event
invokes all handlers registered for that event name AND always also every
registered plain-text handler with the raw frame text; on the server route,
an event-classified message never invokes the plain-text handlers (every
successful dispatch result consists of event invocations only, and when
handlers exist for the event they are exactly the ones invoked). -/
theorem client_dual_dispatch_vs_route (loads : List Char → Option Json)
    (rest : List Char) (fields : List (String × Json)) (e : String) (d : Json)
    (C : MokeiWebSocketClient.ClientHandlers)
    (hl : loads rest = some (Json.obj fields))
    (hev : findField fields "event" = some (Json.str e))
    (hd : findField fields "data" = some d) :
    MokeiWebSocketClient.ontext_handler loads C (MEM ++ rest)
      = .ok (((findHandlers C.eventHandlers e).getD []).map
               (fun h => Invocation.event h (some d))
             ++ C.textHandlers.map (fun h => Invocation.text h (MEM ++ rest)))
    ∧ (∀ (R : MokeiWebSocketRoute.RouteHandlers) (res : List Invocation),
        MokeiWebSocketRoute.ontext_handler loads R (MEM ++ rest) = .ok res →
        ∀ i ∈ res, i.isEvent = true)
    ∧ (e ≠ "" → ∀ (R : MokeiWebSocketRoute.RouteHandlers) (hs : List Nat),
        findHandlers R.eventHandlers e = some hs →
        MokeiWebSocketRoute.ontext_handler loads R (MEM ++ rest)
          = .ok (hs.map (fun h => Invocation.event h (some d)))) := by
  refine ⟨?_, ?_, ?_⟩
  · rw [client_ontext_marker]
    simp [MokeiWebSocketClient.ontext_marked, hl, pyContains, hev, hd, pyIndex,
      MokeiWebSocketClient.handlersIndex]
  · intro R res hres i hi
    rw [route_ontext_marker] at hres
    simp [MokeiWebSocketRoute.ontext_marked, hl, dictGet, hev, hd, truthyOpt,
      MokeiWebSocketRoute.routeGetHandlers] at hres
    by_cases ht : Json.truthy (Json.str e) = false
    · simp [ht] at hres
      subst hres
      simp at hi
    · simp [ht] at hres
      cases hfh : findHandlers R.eventHandlers e with
      | none => simp [hfh] at hres
      | some hs =>
        simp [hfh] at hres
        subst hres
        rcases List.mem_map.mp hi with ⟨h, _, rfl⟩
        rfl
  · intro hne R hs hfh
    rw [route_ontext_marker]
    have ht : Json.truthy (Json.str e) = true := by
      simp [Json.truthy, bne]
      exact hne
    simp [MokeiWebSocketRoute.ontext_marked, hl, dictGet, hev, hd, truthyOpt,
      MokeiWebSocketRoute.routeGetHandlers, ht, hfh]

/-- Witness for C9: a concrete "ping" event on a client with event handler 3
and plain-text handler 9 fires both. -/
theorem client_dual_dispatch_witness :
    MokeiWebSocketClient.ontext_handler loadsSimple pingClient (MEM ++ pingDataJson)
      = .ok (((findHandlers pingClient.eventHandlers "ping").getD []).map
               (fun h => Invocation.event h (some (Json.num 1)))
             ++ pingClient.textHandlers.map
                 (fun h => Invocation.text h (MEM ++ pingDataJson))) :=
  (client_dual_dispatch_vs_route loadsSimple pingDataJson
    [("event", Json.str "ping"), ("data", Json.num 1)] "ping" (Json.num 1)
    pingClient rfl rfl rfl).1

namespace MokeiWebSocketClient

/-- Claim C5: starting from current 1.0 and max 15.0, every `_get_backoff` call
returns the pre-update current value and updates it to
min(current + current * U, max); for every call sequence without a reset the
values are non-decreasing and bounded above by 15, each consecutive delta lies
in [0, previous value], and `_reset_backoff` restores current to the
default (1.0) exactly.  Modelled over exact rationals with the uniform draw
quantified over [0, 1). -/
theorem get_backoff_sequence (u : Nat → Rat) (hu : ∀ i, 0 ≤ u i ∧ u i < 1) :
    (∀ n, ((backoffIter u n).get_backoff (u n)).1 = (backoffIter u n).currentBackoff
      ∧ ((backoffIter u n).get_backoff (u n)).2.currentBackoff
          = min ((backoffIter u n).currentBackoff
                 + (backoffIter u n).currentBackoff * u n) 15)
    ∧ (∀ n, (backoffIter u n).currentBackoff ≤ (backoffIter u (n + 1)).currentBackoff)
    ∧ (∀ n, (backoffIter u n).currentBackoff ≤ 15)
    ∧ (∀ n, 0 ≤ (backoffIter u (n + 1)).currentBackoff - (backoffIter u n).currentBackoff
        ∧ (backoffIter u (n + 1)).currentBackoff - (backoffIter u n).currentBackoff
          ≤ (backoffIter u n).currentBackoff)
    ∧ (∀ st : BackoffState, st.reset_backoff.currentBackoff = st.defaultBackoff)
    ∧ initBackoff.currentBackoff = initBackoff.defaultBackoff
    ∧ initBackoff.defaultBackoff = 1 ∧ initBackoff.maxBackoff = 15 := by
  have hb := backoffIter_bounds u (fun i => (hu i).1)
  have hstep : ∀ n, (backoffIter u (n + 1)).currentBackoff
      = min ((backoffIter u n).currentBackoff
             + (backoffIter u n).currentBackoff * u n) 15 := by
    intro n
    simp only [backoffIter, BackoffState.get_backoff, backoffIter_max u n]
  have hmono : ∀ n, (backoffIter u n).currentBackoff
      ≤ (backoffIter u (n + 1)).currentBackoff := by
    intro n
    rw [hstep n]
    refine le_min ?_ (hb n).2
    nlinarith [(hb n).1, (hu n).1]
  refine ⟨?_, hmono, fun n => (hb n).2, ?_, fun st => rfl, rfl, rfl, rfl⟩
  · intro n
    exact ⟨rfl, hstep n⟩
  · intro n
    refine ⟨by linarith [hmono n], ?_⟩
    have h1 : (backoffIter u (n + 1)).currentBackoff
        ≤ (backoffIter u n).currentBackoff + (backoffIter u n).currentBackoff * u n := by
      rw [hstep n]
      exact min_le_left _ _
    nlinarith [(hb n).1, (hu n).2]

/-- Witness for C5 with the constant jitter one half. -/
theorem get_backoff_sequence_witness :
    (backoffIter uHalf 3).currentBackoff ≤ 15
    ∧ (backoffIter uHalf 0).currentBackoff ≤ (backoffIter uHalf 1).currentBackoff := by
  have h := get_backoff_sequence uHalf (by intro i; constructor <;> norm_num [uHalf])
  exact ⟨h.2.2.1 3, h.2.1 0⟩

/-- Claim C6: `send(text)` appends at the tail and never raises even while
disconnected (the drain is then a no-op, leaving everything queued); a
connected drain attempts queued messages in FIFO order, removing a message
only after its hand-off succeeds (the result's sent list is exactly the
maximal successful prefix, in order), and the first failing send stops the
drain leaving that message and all later ones queued in their original
order (the remaining queue is exactly the corresponding suffix). -/
theorem send_queue_fifo (ok : Nat → Bool) (q : List (List Char)) (t : List Char)
    (k : Nat) :
    send false ok q t = (q ++ [t], [])
    ∧ send_unsent_messages false ok k q = (q, [])
    ∧ send_unsent_messages true ok k q
        = (q.drop (okRun ok k q.length), q.take (okRun ok k q.length))
    ∧ (∀ j, j < okRun ok k q.length → ok (k + j) = true)
    ∧ (okRun ok k q.length = q.length ∨ ok (k + okRun ok k q.length) = false) :=
  ⟨by simp [send, send_unsent_disconnected],
   send_unsent_disconnected ok k q,
   send_unsent_connected ok q k,
   fun j hj => okRun_all_ok ok q.length k j hj,
   okRun_stop ok q.length k⟩

/-- Witness for C6: a disconnected send enqueues at the tail and sends nothing. -/
theorem send_queue_fifo_witness :
    send false okNever ["a".toList] "b".toList = (["a".toList, "b".toList], []) :=
  (send_queue_fifo okNever ["a".toList] "b".toList 0).1

end MokeiWebSocketClient
